import Mathlib

/-!
Verification of the kloom recording upload/transfer state machine.

The definitions below are a shallow embedding of the repository's
TypeScript source:

* `src/lib/firestore.ts` — the Recording ledger (Firestore documents keyed
  by id), the Settings singleton, `createRecording`, `getRecording`,
  `updateRecording`, `deleteRecording`, `incrementViewCount`.
* `src/app/api/upload/[id]/route.ts` — the direct ("Path A") upload
  handler `PUT`.
* `src/app/api/upload/[id]/transfer/route.ts` — the GCS→Drive transfer
  trigger `POST` ("Path B").
* the recording CRUD route (`PATCH`, `DELETE`) and the two creation
  endpoints (Path A creation and the signed-URL Path B creation).
* `src/lib/drive.ts` — the final-store (Drive) and holding-area (GCS)
  collaborators; they are modelled as oracles in an `Env` record because
  they are remote services.

Timestamps are modelled as naturals.  A Firestore document field that the
code stores as a possibly-absent string and tests with JS truthiness
(`gcsPath`) is modelled as a `String` where `""` means absent/cleared,
which matches the truthiness test `!recording.gcsPath` exactly (both
`undefined` and `''` are falsy).
-/

/-- Recording lifecycle status, from the `Recording` interface in
`src/lib/firestore.ts`: `'processing' | 'uploading' | 'ready' | 'error'`. -/
inductive Status where
  | processing
  | uploading
  | ready
  | error
deriving DecidableEq, Repr

/-- The Settings singleton document (`Settings` in `src/lib/firestore.ts`). -/
structure Settings where
  driveFolderId : String
  defaultQuality : String
  defaultMicEnabled : Bool
  defaultWebcamEnabled : Bool
deriving DecidableEq, Repr

/-- A Recording document (`Recording` in `src/lib/firestore.ts`).
`gcsPath = ""` models the field being absent or cleared. -/
structure Recording where
  id : String
  title : String
  driveFileId : String
  driveFolderId : String
  duration : Nat
  status : Status
  createdAt : Nat
  updatedAt : Nat
  viewCount : Nat
  fileSize : Nat
  gcsPath : String
deriving DecidableEq, Repr

/-- A `Partial<Recording>` as passed to `updateRecording`: every field
optional.  `updatedAt` may be passed but is always overwritten by the
implementation (`{...updates, updatedAt: new Date().toISOString()}`). -/
structure RecordingUpdate where
  id : Option String := none
  title : Option String := none
  driveFileId : Option String := none
  driveFolderId : Option String := none
  duration : Option Nat := none
  status : Option Status := none
  createdAt : Option Nat := none
  updatedAt : Option Nat := none
  viewCount : Option Nat := none
  fileSize : Option Nat := none
  gcsPath : Option String := none
deriving DecidableEq, Repr

/-- The recordings collection: documents keyed by id. -/
def Ledger : Type := String → Option Recording

/-- Firestore errors surfaced by the ledger operations. -/
inductive FirestoreErr where
  | notFound
deriving DecidableEq, Repr

/-- Point update of the document store at one key (Firestore `.set`). -/
def Ledger.setDoc (l : Ledger) (id : String) (r : Recording) : Ledger :=
  fun k => if k = id then some r else l k

/-- Firestore `.delete()` of one document. -/
def Ledger.delDoc (l : Ledger) (id : String) : Ledger :=
  fun k => if k = id then none else l k

/-- Field-merge of a partial update into a stored document, as
`updateRecording` builds `updateData`: every present field overwrites, and
`updatedAt` is unconditionally refreshed to now.  Note that a present
`createdAt` IS written (the code serialises it to ISO and includes it),
and a present `id` field is written into the document body. -/
def applyRecordingUpdate (r : Recording) (u : RecordingUpdate) (now : Nat) :
    Recording :=
  { id := u.id.getD r.id
    title := u.title.getD r.title
    driveFileId := u.driveFileId.getD r.driveFileId
    driveFolderId := u.driveFolderId.getD r.driveFolderId
    duration := u.duration.getD r.duration
    status := u.status.getD r.status
    createdAt := u.createdAt.getD r.createdAt
    updatedAt := now
    viewCount := u.viewCount.getD r.viewCount
    fileSize := u.fileSize.getD r.fileSize
    gcsPath := u.gcsPath.getD r.gcsPath }

/-- `getRecording` from `src/lib/firestore.ts`: returns `null` when the
document is missing, and otherwise `{...data, id: doc.id}` — the `id`
field of the result is always the document key, overriding whatever `id`
field the stored data carries. -/
def getRecording (l : Ledger) (id : String) : Option Recording :=
  (l id).map fun r => { r with id := id }

/-- `createRecording`: stamps `createdAt = updatedAt = now` and
`viewCount = 0` onto the caller-supplied fields and `.set`s the document.
The caller supplies everything except those three fields. -/
def createRecording (l : Ledger) (r : Recording) (now : Nat) :
    Ledger × Recording :=
  let full : Recording :=
    { r with createdAt := now, updatedAt := now, viewCount := 0 }
  (l.setDoc r.id full, full)

/-- `updateRecording`: Firestore `.update` throws NOT_FOUND when the
document is absent; otherwise it merges the partial fields and refreshes
`updatedAt`. -/
def updateRecording (l : Ledger) (id : String) (u : RecordingUpdate)
    (now : Nat) : Except FirestoreErr Ledger :=
  match l id with
  | none => .error .notFound
  | some r => .ok (l.setDoc id (applyRecordingUpdate r u now))

/-- The same merge, used inside handlers at points where the handler has
already loaded the document (so the NOT_FOUND branch of `updateRecording`
cannot fire). -/
def ledgerMerge (l : Ledger) (id : String) (u : RecordingUpdate)
    (now : Nat) : Ledger :=
  fun k => if k = id then (l k).map (fun r => applyRecordingUpdate r u now)
           else l k

/-- `deleteRecording`: unconditional document delete. -/
def deleteRecording (l : Ledger) (id : String) : Ledger :=
  l.delDoc id

/-- `incrementViewCount`: a `runTransaction` that reads the document and,
only if it exists, writes `viewCount + 1` (and a fresh `updatedAt`).  On a
missing id the transaction body does nothing and the call succeeds.
Firestore transactions are serialisable, so a set of concurrent calls is
equivalent to executing this function once per call in some order. -/
def incrementViewCount (l : Ledger) (id : String) (now : Nat) : Ledger :=
  match l id with
  | none => l
  | some r =>
      l.setDoc id { r with viewCount := r.viewCount + 1, updatedAt := now }

/-- `n` successive `incrementViewCount` calls on the same id (the serial
order that any concurrent schedule of the transactions is equivalent to).
`nows` supplies each transaction's timestamp. -/
def iterIncrement : Nat → Ledger → String → (Nat → Nat) → Ledger
  | 0, l, _, _ => l
  | n + 1, l, id, nows => iterIncrement n (incrementViewCount l id (nows n)) id nows

/-- Title sanitisation from the upload handlers:
`recording.title.replace(/[^a-zA-Z0-9]/g, '_')` — every character outside
`[a-zA-Z0-9]` becomes `'_'`. -/
def sanitizeChar (c : Char) : Char :=
  if ('a' ≤ c ∧ c ≤ 'z') ∨ ('A' ≤ c ∧ c ≤ 'Z') ∨ ('0' ≤ c ∧ c ≤ '9')
  then c else '_'

/-- The sanitised title: the per-character global replace applied to the
title's character list. -/
def sanitizeTitle (t : String) : String :=
  ⟨t.data.map sanitizeChar⟩

/-- The derived Drive file name used by both upload paths:
``${title.replace(/[^a-zA-Z0-9]/g, '_')}_${id}.webm``. -/
def driveFileName (title id : String) : String :=
  sanitizeTitle title ++ "_" ++ id ++ ".webm"

/-- The GCS holding path derived from a recording id in
`generateSignedUploadUrl`: ``uploads/${recordingId}.webm``. -/
def gcsPathFor (id : String) : String :=
  "uploads/" ++ id ++ ".webm"

/-- The external world the handlers interact with in one invocation:
the Settings document, the wall clock, GCS object existence
(`checkGcsFile`), and the two Drive transfer primitives as oracles.
`drivePut payload name folder` models `uploadToDriveResumable` (`none`
means the remote call threw); `gcsTransfer path name folder` models
`transferFromGcsToDrive` (download from GCS, put into Drive, best-effort
GCS delete; `none` means some remote step threw). -/
structure Env where
  settings : Option Settings
  now : Nat
  gcsExists : String → Bool
  drivePut : Nat → String → String → Option String
  gcsTransfer : String → String → String → Option String

/-- HTTP responses of the upload/transfer handlers, tagged by their error
taxonomy. -/
inductive Resp where
  | ok (fileId : String)
  | notFound
  | misconfigured
  | emptyPayload
  | missingUpload
  | uploadNotFound
  | serverError
deriving DecidableEq, Repr

/-- HTTP status code of each response, as returned by the routes. -/
def Resp.code : Resp → Nat
  | .ok _ => 200
  | .notFound => 404
  | .misconfigured => 400
  | .emptyPayload => 400
  | .missingUpload => 400
  | .uploadNotFound => 404
  | .serverError => 500

/-- Result of one handler invocation: the ledger afterwards, the HTTP
response, the sequence of `status` values the handler wrote to the
document (in order), and the final-store put requests it issued (file
name, destination folder). -/
structure HResult where
  ledger : Ledger
  resp : Resp
  statusWrites : List Status
  puts : List (String × String)

/-- `PUT /api/upload/[id]` (`src/app/api/upload/[id]/route.ts`): the
direct Path A upload.  Steps: load recording (404 if absent); require a
configured Drive folder (400 otherwise); merge `status: 'uploading'`;
read the payload, and on an empty buffer merge `status: 'error'` and
return 400; otherwise upload to Drive under the derived file name into
the folder read from Settings, then merge
`{driveFileId, status: 'ready', fileSize}`; any thrown error merges
`status: 'error'` (best-effort) and returns 500. -/
def putUpload (env : Env) (l : Ledger) (id : String) (payload : Nat) :
    HResult :=
  match getRecording l id with
  | none => ⟨l, .notFound, [], []⟩
  | some recording =>
    match env.settings with
    | none => ⟨l, .misconfigured, [], []⟩
    | some s =>
      if s.driveFolderId = "" then ⟨l, .misconfigured, [], []⟩
      else
        let l1 := ledgerMerge l id { status := some .uploading } env.now
        if payload = 0 then
          ⟨ledgerMerge l1 id { status := some .error } env.now,
           .emptyPayload, [.uploading, .error], []⟩
        else
          let name := driveFileName recording.title id
          match env.drivePut payload name s.driveFolderId with
          | some fid =>
              ⟨ledgerMerge l1 id
                 { driveFileId := some fid, status := some .ready,
                   fileSize := some payload } env.now,
               .ok fid, [.uploading, .ready], [(name, s.driveFolderId)]⟩
          | none =>
              ⟨ledgerMerge l1 id { status := some .error } env.now,
               .serverError, [.uploading, .error],
               [(name, s.driveFolderId)]⟩

/-- `POST /api/upload/[id]/transfer`
(`src/app/api/upload/[id]/transfer/route.ts`): the Path B trigger.
Steps: load recording (404 if absent); if `gcsPath` is falsy return 400
"No upload found for this recording" with no writes; check the GCS object
exists, and if not merge `status: 'error'` and return 404 "Upload file
not found"; require a configured Drive folder (400); merge
`status: 'uploading'`; transfer GCS→Drive under the derived name into the
Settings folder; on success merge
`{driveFileId, status: 'ready', gcsPath: ''}`; a thrown error merges
`status: 'error'` and returns 500. -/
def transferPost (env : Env) (l : Ledger) (id : String) : HResult :=
  match getRecording l id with
  | none => ⟨l, .notFound, [], []⟩
  | some recording =>
    if recording.gcsPath = "" then ⟨l, .missingUpload, [], []⟩
    else if env.gcsExists recording.gcsPath = false then
      ⟨ledgerMerge l id { status := some .error } env.now,
       .uploadNotFound, [.error], []⟩
    else
      match env.settings with
      | none => ⟨l, .misconfigured, [], []⟩
      | some s =>
        if s.driveFolderId = "" then ⟨l, .misconfigured, [], []⟩
        else
          let l1 := ledgerMerge l id { status := some .uploading } env.now
          let name := driveFileName recording.title id
          match env.gcsTransfer recording.gcsPath name s.driveFolderId with
          | some fid =>
              ⟨ledgerMerge l1 id
                 { driveFileId := some fid, status := some .ready,
                   gcsPath := some "" } env.now,
               .ok fid, [.uploading, .ready], [(name, s.driveFolderId)]⟩
          | none =>
              ⟨ledgerMerge l1 id { status := some .error } env.now,
               .serverError, [.uploading, .error],
               [(name, s.driveFolderId)]⟩

/-- `PATCH` of the recording CRUD route: loads the recording (404 if
absent) and forwards only the allow-listed field `title` to
`updateRecording`. -/
def patchRecording (env : Env) (l : Ledger) (id : String)
    (bodyTitle : Option String) : Ledger × Resp :=
  match getRecording l id with
  | none => (l, .notFound)
  | some _ =>
      (ledgerMerge l id { title := bodyTitle } env.now, .ok "")

/-- `DELETE` of the recording CRUD route: loads the recording (404 if
absent), best-effort deletes the Drive object when `driveFileId` is set,
then deletes the ledger document. -/
def deleteRoute (l : Ledger) (id : String) : Ledger × Resp :=
  match getRecording l id with
  | none => (l, .notFound)
  | some _ => (deleteRecording l id, .ok "")

/-- The Path A creation endpoint (`POST /api/upload`): requires a
configured Drive folder, then creates the recording with
`status: 'processing'`, empty `driveFileId`, the Settings folder
snapshotted into `driveFolderId`, and no `gcsPath`. -/
def createPathA (env : Env) (l : Ledger) (newId title : String)
    (duration fileSize : Nat) : Ledger × Resp :=
  match env.settings with
  | none => (l, .misconfigured)
  | some s =>
    if s.driveFolderId = "" then (l, .misconfigured)
    else
      ((createRecording l
          { id := newId, title := title, driveFileId := ""
            driveFolderId := s.driveFolderId, duration := duration
            status := .processing, createdAt := 0, updatedAt := 0
            viewCount := 0, fileSize := fileSize, gcsPath := "" }
          env.now).1,
       .ok "")

/-- The Path B creation endpoint (the signed-URL route): like Path A
creation but additionally generates the signed GCS upload URL and stores
the derived holding path `uploads/{id}.webm` in `gcsPath`. -/
def createPathB (env : Env) (l : Ledger) (newId title : String)
    (duration fileSize : Nat) : Ledger × Resp :=
  match env.settings with
  | none => (l, .misconfigured)
  | some s =>
    if s.driveFolderId = "" then (l, .misconfigured)
    else
      ((createRecording l
          { id := newId, title := title, driveFileId := ""
            driveFolderId := s.driveFolderId, duration := duration
            status := .processing, createdAt := 0, updatedAt := 0
            viewCount := 0, fileSize := fileSize,
            gcsPath := gcsPathFor newId }
          env.now).1,
       .ok "")

/-- Well-behaved remote environment: when a Drive call succeeds it returns
a real (non-empty) file id, as `response.data.id!` does. -/
def GoodEnv (env : Env) : Prop :=
  (∀ p n f fid, env.drivePut p n f = some fid → fid ≠ "") ∧
  (∀ g n f fid, env.gcsTransfer g n f = some fid → fid ≠ "")

/-- One ledger transition performed by some API operation of the system,
under an arbitrary well-behaved environment: the two creation endpoints,
the direct upload, the transfer trigger, the title PATCH, a share-link
view (`incrementViewCount`), or deletion. -/
inductive ApiStep : Ledger → Ledger → Prop where
  | createA (env : Env) (l : Ledger) (newId title : String)
      (duration fileSize : Nat) :
      ApiStep l (createPathA env l newId title duration fileSize).1
  | createB (env : Env) (l : Ledger) (newId title : String)
      (duration fileSize : Nat) :
      ApiStep l (createPathB env l newId title duration fileSize).1
  | put (env : Env) (l : Ledger) (id : String) (payload : Nat)
      (hgood : GoodEnv env) :
      ApiStep l (putUpload env l id payload).ledger
  | transfer (env : Env) (l : Ledger) (id : String) (hgood : GoodEnv env) :
      ApiStep l (transferPost env l id).ledger
  | patch (env : Env) (l : Ledger) (id : String) (bodyTitle : Option String) :
      ApiStep l (patchRecording env l id bodyTitle).1
  | view (l : Ledger) (id : String) (now : Nat) :
      ApiStep l (incrementViewCount l id now)
  | del (l : Ledger) (id : String) :
      ApiStep l (deleteRoute l id).1

/-- The "ready implies file ref" property on a ledger: every stored
recording with `status = ready` has a non-empty `driveFileId`. -/
def ReadyHasFile (l : Ledger) : Prop :=
  ∀ id r, l id = some r → r.status = .ready → r.driveFileId ≠ ""

/-- The empty recordings collection. -/
def emptyLedger : Ledger := fun _ => none

/-- A concrete Settings document with folder `F1`. -/
def exSettings : Settings :=
  { driveFolderId := "F1", defaultQuality := "1080p"
    defaultMicEnabled := true, defaultWebcamEnabled := true }

/-- A concrete Settings document with folder `F2` (a later Settings edit). -/
def exSettings2 : Settings :=
  { driveFolderId := "F2", defaultQuality := "1080p"
    defaultMicEnabled := true, defaultWebcamEnabled := true }

/-- A healthy environment: folder `F1` configured, holding objects exist,
remote calls succeed with Drive file id `D1`. -/
def exEnv : Env :=
  { settings := some exSettings, now := 10
    gcsExists := fun _ => true
    drivePut := fun _ _ _ => some "D1"
    gcsTransfer := fun _ _ _ => some "D1" }

/-- Environment after a Settings edit to folder `F2`. -/
def exEnv2 : Env :=
  { settings := some exSettings2, now := 11
    gcsExists := fun _ => true
    drivePut := fun _ _ _ => some "D2"
    gcsTransfer := fun _ _ _ => some "D2" }

/-- Environment whose remote Drive calls throw. -/
def exEnvFail : Env :=
  { settings := some exSettings, now := 12
    gcsExists := fun _ => true
    drivePut := fun _ _ _ => none
    gcsTransfer := fun _ _ _ => none }

/-- Environment where the holding-area object is missing. -/
def exEnvNoObj : Env :=
  { settings := some exSettings, now := 13
    gcsExists := fun _ => false
    drivePut := fun _ _ _ => some "D1"
    gcsTransfer := fun _ _ _ => some "D1" }

/-- A recording that has already reached `ready` (Path A history:
`driveFileId = "D0"`, no holding path). -/
def exReadyRec : Recording :=
  { id := "r1", title := "Demo", driveFileId := "D0", driveFolderId := "F1"
    duration := 42, status := .ready, createdAt := 1, updatedAt := 2
    viewCount := 0, fileSize := 100, gcsPath := "" }

/-- Ledger holding only `exReadyRec` under key `r1`. -/
def exLedgerReady : Ledger := emptyLedger.setDoc "r1" exReadyRec

/-- Ledger after a Path B creation of recording `abc` (title `Demo`,
holding path `uploads/abc.webm`, status `processing`). -/
def exLedgerB : Ledger :=
  (createPathB exEnv emptyLedger "abc" "Demo" 42 0).1

/-- Ledger after calling the direct (Path A) upload on the Path-B-created
recording `abc` with a 5-byte payload in the healthy environment. -/
def exMixed : Ledger := (putUpload exEnv exLedgerB "abc" 5).ledger

/-- A freshly created (processing) recording whose snapshotted folder is
`F1`. -/
def exProcRec : Recording :=
  { id := "p1", title := "Demo", driveFileId := "", driveFolderId := "F1"
    duration := 7, status := .processing, createdAt := 3, updatedAt := 3
    viewCount := 0, fileSize := 0, gcsPath := "" }

/-- Ledger holding only `exProcRec` under key `p1`. -/
def exLedgerProc : Ledger := emptyLedger.setDoc "p1" exProcRec

/-- A Path-B recording whose holding path is set (upload pending). -/
def exPendingRec : Recording :=
  { id := "q1", title := "Demo", driveFileId := "", driveFolderId := "F1"
    duration := 7, status := .processing, createdAt := 4, updatedAt := 4
    viewCount := 0, fileSize := 0, gcsPath := "uploads/q1.webm" }

/-- Ledger holding only `exPendingRec` under key `q1`. -/
def exLedgerPending : Ledger := emptyLedger.setDoc "q1" exPendingRec

/-- A ready recording with two prior views. -/
def exViewRec : Recording := { exReadyRec with id := "v1", viewCount := 2 }

/-- Ledger holding only `exViewRec` under key `v1`. -/
def exLedgerView : Ledger := emptyLedger.setDoc "v1" exViewRec

theorem ledgerMerge_self (l : Ledger) (id : String) (u : RecordingUpdate)
    (now : Nat) :
    ledgerMerge l id u now id =
      (l id).map (fun r => applyRecordingUpdate r u now) := by
  simp [ledgerMerge]

theorem ledgerMerge_ne (l : Ledger) (id k : String) (u : RecordingUpdate)
    (now : Nat) (h : k ≠ id) : ledgerMerge l id u now k = l k := by
  simp [ledgerMerge, h]

theorem getRecording_eq_some {l : Ledger} {id : String} {r : Recording}
    (h : getRecording l id = some r) :
    ∃ r0, l id = some r0 ∧ ({ r0 with id := id } : Recording) = r := by
  simpa [getRecording, Option.map_eq_some'] using h

/-- **C6**: `incrementViewCount` is a Firestore `runTransaction` doing an
atomic read-increment-write.  Transactions serialise, so `n` concurrent
calls are equivalent to `n` sequential executions in some order
(`iterIncrement`); for a recording present in the ledger the final
`viewCount` is the pre-call value plus exactly `n`. -/
theorem C6_view_count_increments (n : Nat) (l : Ledger) (id : String)
    (r : Recording) (nows : Nat → Nat) (h : l id = some r) :
    ((iterIncrement n l id nows) id).map Recording.viewCount =
      some (r.viewCount + n) := by
  induction n generalizing l r with
  | zero => simp [iterIncrement, h]
  | succ n ih =>
    have hstep : (incrementViewCount l id (nows n)) id =
        some { r with viewCount := r.viewCount + 1, updatedAt := nows n } := by
      simp [incrementViewCount, h, Ledger.setDoc]
    have hiter := ih (incrementViewCount l id (nows n))
      { r with viewCount := r.viewCount + 1, updatedAt := nows n } hstep
    rw [iterIncrement, hiter]
    congr 1
    show r.viewCount + 1 + n = r.viewCount + (n + 1)
    omega

/-- Witness for C6 at a concrete ledger: three views on a recording with
`viewCount = 2` end at `viewCount = 5`. -/
theorem C6_view_count_increments_witness :
    ((iterIncrement 3 exLedgerView "v1" (fun t => t)) "v1").map
      Recording.viewCount = some 5 :=
  C6_view_count_increments 3 exLedgerView "v1" exViewRec (fun t => t)
    (by decide)

/-- **C10**: `incrementViewCount` on an id absent from the ledger is a
silent no-op — the transaction body sees `!doc.exists`, writes nothing and
the call succeeds — whereas `getRecording` surfaces `null` (the routes turn
it into 404) and `updateRecording` fails with NOT_FOUND. -/
theorem C10_increment_absent_silent_noop (l : Ledger) (id : String)
    (u : RecordingUpdate) (now now' : Nat) (h : l id = none) :
    incrementViewCount l id now = l ∧
    getRecording l id = none ∧
    updateRecording l id u now' = .error .notFound := by
  refine ⟨?_, ?_, ?_⟩
  · unfold incrementViewCount
    rw [h]
  · unfold getRecording
    rw [h]
    rfl
  · unfold updateRecording
    rw [h]

/-- Witness for C10 on the empty ledger. -/
theorem C10_increment_absent_silent_noop_witness :
    incrementViewCount emptyLedger "x" 0 = emptyLedger ∧
    getRecording emptyLedger "x" = none ∧
    updateRecording emptyLedger "x" {} 1 = .error .notFound :=
  C10_increment_absent_silent_noop emptyLedger "x" {} 0 1 rfl

/-- **C7**: for an existing recording with a configured destination
folder, a direct upload with an empty (zero-byte) payload is rejected
with the 400 empty-payload error, the ledger is moved to `status = error`
before returning (so the recording is not left stuck in `uploading`), and
no final-store put is attempted. -/
theorem C7_empty_payload_rejected (env : Env) (l : Ledger) (id : String)
    (r : Recording) (s : Settings) (hget : getRecording l id = some r)
    (hs : env.settings = some s) (hf : s.driveFolderId ≠ "") :
    (putUpload env l id 0).resp = .emptyPayload ∧
    (putUpload env l id 0).resp.code = 400 ∧
    ((putUpload env l id 0).ledger id).map Recording.status = some .error ∧
    (putUpload env l id 0).puts = [] := by
  obtain ⟨r0, hr0, -⟩ := getRecording_eq_some hget
  simp only [putUpload, hget, hs, if_neg hf, if_pos rfl, if_true]
  refine ⟨by trivial, by trivial, ?_, by trivial⟩
  rw [ledgerMerge_self, ledgerMerge_self, hr0]
  rfl

/-- Witness for C7: empty upload on the fresh recording `p1`. -/
theorem C7_empty_payload_rejected_witness :
    (putUpload exEnv exLedgerProc "p1" 0).resp = .emptyPayload ∧
    (putUpload exEnv exLedgerProc "p1" 0).resp.code = 400 ∧
    ((putUpload exEnv exLedgerProc "p1" 0).ledger "p1").map Recording.status
      = some .error ∧
    (putUpload exEnv exLedgerProc "p1" 0).puts = [] :=
  C7_empty_payload_rejected exEnv exLedgerProc "p1" exProcRec exSettings
    (by decide) rfl (by decide)

/-- **C3**: a transfer trigger on a recording whose `gcsPath` is set but
whose holding object does not exist fails with the 404 upload-not-found
error, sets `status = error`, performs no final-store put, and never
writes `ready`. -/
theorem C3_trigger_missing_object (env : Env) (l : Ledger) (id : String)
    (r : Recording) (hget : getRecording l id = some r)
    (hpath : r.gcsPath ≠ "") (hex : env.gcsExists r.gcsPath = false) :
    (transferPost env l id).resp = .uploadNotFound ∧
    (transferPost env l id).resp.code = 404 ∧
    ((transferPost env l id).ledger id).map Recording.status = some .error ∧
    (transferPost env l id).puts = [] ∧
    (transferPost env l id).statusWrites = [.error] := by
  obtain ⟨r0, hr0, -⟩ := getRecording_eq_some hget
  simp only [transferPost, hget, if_neg hpath, hex, if_pos rfl, if_true]
  refine ⟨by trivial, by trivial, ?_, by trivial, by trivial⟩
  rw [ledgerMerge_self, hr0]
  rfl

/-- Witness for C3: trigger on pending recording `q1` while the holding
object is missing. -/
theorem C3_trigger_missing_object_witness :
    (transferPost exEnvNoObj exLedgerPending "q1").resp = .uploadNotFound ∧
    (transferPost exEnvNoObj exLedgerPending "q1").resp.code = 404 ∧
    ((transferPost exEnvNoObj exLedgerPending "q1").ledger "q1").map
      Recording.status = some .error ∧
    (transferPost exEnvNoObj exLedgerPending "q1").puts = [] ∧
    (transferPost exEnvNoObj exLedgerPending "q1").statusWrites = [.error] :=
  C3_trigger_missing_object exEnvNoObj exLedgerPending "q1" exPendingRec
    (by decide) (by decide) rfl

/-- **C9**: the Drive file name is the sanitised title (every character
outside `[a-zA-Z0-9]` replaced by `'_'`), then `'_'`, then the recording
id, then `".webm"`; for a fixed title the name determines the id, so two
recordings with distinct ids get distinct file names even when their
titles coincide.  Every character of the sanitised title is alphanumeric
or `'_'`. -/
theorem C9_drive_filename_unique (t i1 i2 : String) :
    (driveFileName t i1 = driveFileName t i2 ↔ i1 = i2) ∧
    ∀ c ∈ (sanitizeTitle t).data,
      ('a' ≤ c ∧ c ≤ 'z') ∨ ('A' ≤ c ∧ c ≤ 'Z') ∨ ('0' ≤ c ∧ c ≤ '9') ∨
        c = '_' := by
  constructor
  · constructor
    · intro h
      have hd := congrArg String.data h
      simp only [driveFileName, String.data_append] at hd
      have h1 := List.append_cancel_right hd
      have h2 := List.append_cancel_left h1
      exact String.ext h2
    · intro h
      rw [h]
  · intro c hc
    have hc' : c ∈ t.data.map sanitizeChar := hc
    obtain ⟨c0, -, rfl⟩ := List.mem_map.mp hc'
    by_cases h : ('a' ≤ c0 ∧ c0 ≤ 'z') ∨ ('A' ≤ c0 ∧ c0 ≤ 'Z') ∨
        ('0' ≤ c0 ∧ c0 ≤ '9')
    · rw [sanitizeChar, if_pos h]
      tauto
    · rw [sanitizeChar, if_neg h]
      tauto

/-- Witness for C9: ids `a1` and `b2` with the shared title `My Demo!`
give distinct file names. -/
theorem C9_drive_filename_unique_witness :
    ("a1" : String) ≠ "b2" ∧
    driveFileName "My Demo!" "a1" ≠ driveFileName "My Demo!" "b2" :=
  ⟨by decide, fun h =>
    absurd ((C9_drive_filename_unique "My Demo!" "a1" "b2").1.mp h)
      (by decide)⟩

/-- **C1** (amended): within any single invocation, the status writes of
the direct upload are `[]`, `[uploading, ready]` or `[uploading, error]`,
and those of the transfer trigger are additionally possibly `[error]` —
so `ready` is only ever written immediately after `uploading` in the same
invocation and no step skips from `processing` directly to `ready`; and a
transfer trigger on a recording whose `gcsPath` is cleared (as after a
successful Path-B transfer) changes nothing and fails with the
missing-upload error.  However, the handlers do not guard on the current
status: a direct upload (and a transfer trigger whose holding object
still exists) moves a recording already in `ready` or `error` back to
`uploading`, so the claim's "no transition out of ready/error except
deletion" is false as stated. -/
theorem C1_status_writes_amended (env : Env) (l : Ledger) (id : String)
    (payload : Nat) (r : Recording) (hget : getRecording l id = some r) :
    ((putUpload env l id payload).statusWrites = [.uploading, .ready] ∨
     (putUpload env l id payload).statusWrites = [.uploading, .error] ∨
     (putUpload env l id payload).statusWrites = []) ∧
    ((transferPost env l id).statusWrites = [.uploading, .ready] ∨
     (transferPost env l id).statusWrites = [.uploading, .error] ∨
     (transferPost env l id).statusWrites = [.error] ∨
     (transferPost env l id).statusWrites = []) ∧
    (r.gcsPath = "" →
      (transferPost env l id).ledger = l ∧
      (transferPost env l id).statusWrites = [] ∧
      (transferPost env l id).resp = .missingUpload) := by
  refine ⟨?_, ?_, ?_⟩
  · simp only [putUpload, hget]
    cases hs : env.settings with
    | none => simp
    | some s =>
      by_cases hf : s.driveFolderId = ""
      · simp [hf]
      · simp only [if_neg hf]
        by_cases hp : payload = 0
        · simp [hp]
        · simp only [if_neg hp]
          cases env.drivePut payload (driveFileName r.title id)
            s.driveFolderId <;> simp
  · simp only [transferPost, hget]
    by_cases hg : r.gcsPath = ""
    · simp [hg]
    · simp only [if_neg hg]
      by_cases he : env.gcsExists r.gcsPath = false
      · simp [he]
      · simp only [he, if_false]
        cases hs : env.settings with
        | none => simp
        | some s =>
          by_cases hf : s.driveFolderId = ""
          · simp [hf]
          · simp only [if_neg hf]
            cases env.gcsTransfer r.gcsPath (driveFileName r.title id)
              s.driveFolderId <;> simp
  · intro hg
    simp [transferPost, hget, hg]

/-- Witness for C1 at a ready recording with cleared `gcsPath`:
re-triggering changes nothing. -/
theorem C1_status_writes_amended_witness :
    (transferPost exEnv exLedgerReady "r1").ledger = exLedgerReady ∧
    (transferPost exEnv exLedgerReady "r1").statusWrites = [] ∧
    (transferPost exEnv exLedgerReady "r1").resp = .missingUpload :=
  (C1_status_writes_amended exEnv exLedgerReady "r1" 7 exReadyRec
    (by decide)).2.2 (by decide)

/-- Counterexample to C1 as stated: recording `r1` is in terminal status
`ready`, yet a direct-upload PUT (whose Drive call then fails) first
moves it back to `uploading` and finally leaves it in `error` — a status
change out of `ready` without deletion. -/
theorem C1_counterexample :
    (exLedgerReady "r1").map Recording.status = some .ready ∧
    (putUpload exEnvFail exLedgerReady "r1" 5).statusWrites =
      [.uploading, .error] ∧
    ((putUpload exEnvFail exLedgerReady "r1" 5).ledger "r1").map
      Recording.status = some .error := by
  decide

theorem readyHasFile_ledgerMerge (l : Ledger) (id : String)
    (u : RecordingUpdate) (now : Nat) (h : ReadyHasFile l)
    (hu : ∀ r0, l id = some r0 →
        (applyRecordingUpdate r0 u now).status = .ready →
        (applyRecordingUpdate r0 u now).driveFileId ≠ "") :
    ReadyHasFile (ledgerMerge l id u now) := by
  intro k r' hk hr'
  by_cases hek : k = id
  · subst hek
    rw [ledgerMerge_self] at hk
    obtain ⟨r0, hr0, rfl⟩ := Option.map_eq_some'.mp hk
    exact hu r0 hr0 hr'
  · rw [ledgerMerge_ne _ _ _ _ _ hek] at hk
    exact h k r' hk hr'

theorem readyHasFile_setDoc (l : Ledger) (id : String) (r : Recording)
    (h : ReadyHasFile l) (hr : r.status = .ready → r.driveFileId ≠ "") :
    ReadyHasFile (l.setDoc id r) := by
  intro k r' hk hr'
  simp only [Ledger.setDoc] at hk
  split at hk
  · cases hk
    exact hr hr'
  · exact h k r' hk hr'

theorem readyHasFile_statusMerge (l : Ledger) (id : String) (st : Status)
    (now : Nat) (h : ReadyHasFile l) (hst : st ≠ .ready) :
    ReadyHasFile (ledgerMerge l id { status := some st } now) := by
  refine readyHasFile_ledgerMerge l id _ now h ?_
  intro r0 _ habs
  exact absurd habs hst

theorem readyHasFile_put (env : Env) (l : Ledger) (id : String)
    (payload : Nat) (hgood : GoodEnv env) (h : ReadyHasFile l) :
    ReadyHasFile (putUpload env l id payload).ledger := by
  unfold putUpload
  cases hget : getRecording l id with
  | none => exact h
  | some r =>
    cases hs : env.settings with
    | none => exact h
    | some s =>
      by_cases hf : s.driveFolderId = ""
      · simp only [if_pos hf]
        exact h
      · simp only [if_neg hf]
        by_cases hp : payload = 0
        · simp only [if_pos hp]
          exact readyHasFile_statusMerge _ _ _ _
            (readyHasFile_statusMerge _ _ _ _ h (by simp)) (by simp)
        · simp only [if_neg hp]
          cases hdp : env.drivePut payload (driveFileName r.title id)
              s.driveFolderId with
          | none =>
            exact readyHasFile_statusMerge _ _ _ _
              (readyHasFile_statusMerge _ _ _ _ h (by simp)) (by simp)
          | some fid =>
            refine readyHasFile_ledgerMerge _ _ _ _
              (readyHasFile_statusMerge _ _ _ _ h (by simp)) ?_
            intro r0 _ _
            exact hgood.1 payload _ _ fid hdp

theorem readyHasFile_transfer (env : Env) (l : Ledger) (id : String)
    (hgood : GoodEnv env) (h : ReadyHasFile l) :
    ReadyHasFile (transferPost env l id).ledger := by
  unfold transferPost
  cases hget : getRecording l id with
  | none => exact h
  | some r =>
    by_cases hg : r.gcsPath = ""
    · simp only [if_pos hg]
      exact h
    · simp only [if_neg hg]
      by_cases he : env.gcsExists r.gcsPath = false
      · simp only [if_pos he]
        exact readyHasFile_statusMerge _ _ _ _ h (by simp)
      · simp only [if_neg he]
        cases hs : env.settings with
        | none => exact h
        | some s =>
          by_cases hf : s.driveFolderId = ""
          · simp only [if_pos hf]
            exact h
          · simp only [if_neg hf]
            cases hdt : env.gcsTransfer r.gcsPath (driveFileName r.title id)
                s.driveFolderId with
            | none =>
              exact readyHasFile_statusMerge _ _ _ _
                (readyHasFile_statusMerge _ _ _ _ h (by simp)) (by simp)
            | some fid =>
              refine readyHasFile_ledgerMerge _ _ _ _
                (readyHasFile_statusMerge _ _ _ _ h (by simp)) ?_
              intro r0 _ _
              exact hgood.2 r.gcsPath _ _ fid hdt

theorem readyHasFile_createA (env : Env) (l : Ledger) (newId title : String)
    (duration fileSize : Nat) (h : ReadyHasFile l) :
    ReadyHasFile (createPathA env l newId title duration fileSize).1 := by
  unfold createPathA
  cases env.settings with
  | none => exact h
  | some s =>
    by_cases hf : s.driveFolderId = ""
    · simp only [if_pos hf]
      exact h
    · simp only [if_neg hf]
      exact readyHasFile_setDoc _ _ _ h (by simp [createRecording])

theorem readyHasFile_createB (env : Env) (l : Ledger) (newId title : String)
    (duration fileSize : Nat) (h : ReadyHasFile l) :
    ReadyHasFile (createPathB env l newId title duration fileSize).1 := by
  unfold createPathB
  cases env.settings with
  | none => exact h
  | some s =>
    by_cases hf : s.driveFolderId = ""
    · simp only [if_pos hf]
      exact h
    · simp only [if_neg hf]
      exact readyHasFile_setDoc _ _ _ h (by simp [createRecording])

theorem readyHasFile_patch (env : Env) (l : Ledger) (id : String)
    (bodyTitle : Option String) (h : ReadyHasFile l) :
    ReadyHasFile (patchRecording env l id bodyTitle).1 := by
  unfold patchRecording
  cases hget : getRecording l id with
  | none => exact h
  | some r =>
    refine readyHasFile_ledgerMerge _ _ _ _ h ?_
    intro r0 hr0 hst
    exact h id r0 hr0 hst

theorem readyHasFile_view (l : Ledger) (id : String) (now : Nat)
    (h : ReadyHasFile l) : ReadyHasFile (incrementViewCount l id now) := by
  unfold incrementViewCount
  cases hr : l id with
  | none => exact h
  | some r =>
    refine readyHasFile_setDoc _ _ _ h ?_
    intro hst
    exact h id r hr hst

theorem readyHasFile_del (l : Ledger) (id : String) (h : ReadyHasFile l) :
    ReadyHasFile (deleteRoute l id).1 := by
  unfold deleteRoute
  cases getRecording l id with
  | none => exact h
  | some r =>
    intro k r' hk hr'
    simp only [deleteRecording, Ledger.delDoc] at hk
    split at hk
    · cases hk
    · exact h k r' hk hr'

/-- When the transfer trigger responds 200 with a file id, the write that
set `status = ready` also set `driveFileId` to that id and cleared
`gcsPath` in the same merge. -/
theorem transferPost_ok_fields (env : Env) (l : Ledger) (id fid : String)
    (hok : (transferPost env l id).resp = .ok fid) :
    ((transferPost env l id).ledger id).map Recording.gcsPath = some "" ∧
    ((transferPost env l id).ledger id).map Recording.driveFileId
      = some fid ∧
    ((transferPost env l id).ledger id).map Recording.status
      = some .ready := by
  revert hok
  unfold transferPost
  cases hget : getRecording l id with
  | none => intro hok; simp at hok
  | some r =>
    obtain ⟨r0, hr0, -⟩ := getRecording_eq_some hget
    by_cases hg : r.gcsPath = ""
    · simp only [if_pos hg]
      intro hok; simp at hok
    · simp only [if_neg hg]
      by_cases he : env.gcsExists r.gcsPath = false
      · simp only [if_pos he]
        intro hok; simp at hok
      · simp only [if_neg he]
        cases env.settings with
        | none => intro hok; simp at hok
        | some s =>
          by_cases hf : s.driveFolderId = ""
          · simp only [if_pos hf]
            intro hok; simp at hok
          · simp only [if_neg hf]
            cases env.gcsTransfer r.gcsPath (driveFileName r.title id)
                s.driveFolderId with
            | none => intro hok; simp at hok
            | some fid' =>
              intro hok
              have hfid : fid' = fid := by
                simpa using hok
              subst hfid
              refine ⟨?_, ?_, ?_⟩ <;>
                · show (((ledgerMerge (ledgerMerge l id _ env.now) id _
                      env.now)) id).map _ = _
                  rw [ledgerMerge_self, ledgerMerge_self, hr0]
                  rfl

/-- **C2** (amended): under environments whose Drive calls return real
(non-empty) file ids, every API operation preserves the invariant that a
stored recording with `status = ready` has a non-empty `driveFileId`; and
a successful Path-B transfer sets `driveFileId` and clears `gcsPath` in
the same write that sets `ready`.  The further part of the claim — that
`status = ready` always implies an empty `holdingPath` — is false as
stated (see the counterexample: a direct upload on a Path-B recording
reaches `ready` with `gcsPath` still set). -/
theorem C2_ready_invariant_amended (l l' : Ledger) (h : ReadyHasFile l)
    (hstep : ApiStep l l') :
    ReadyHasFile l' ∧
    (∀ env id fid, (transferPost env l id).resp = .ok fid →
      ((transferPost env l id).ledger id).map Recording.gcsPath = some "" ∧
      ((transferPost env l id).ledger id).map Recording.driveFileId
        = some fid) := by
  constructor
  · cases hstep with
    | createA env l newId title duration fileSize =>
        exact readyHasFile_createA env l newId title duration fileSize h
    | createB env l newId title duration fileSize =>
        exact readyHasFile_createB env l newId title duration fileSize h
    | put env l id payload hgood => exact readyHasFile_put env l id payload hgood h
    | transfer env l id hgood => exact readyHasFile_transfer env l id hgood h
    | patch env l id bodyTitle => exact readyHasFile_patch env l id bodyTitle h
    | view l id now => exact readyHasFile_view l id now h
    | del l id => exact readyHasFile_del l id h
  · intro env id fid hok
    exact ⟨(transferPost_ok_fields env l id fid hok).1,
      (transferPost_ok_fields env l id fid hok).2.1⟩

/-- Witness for C2: the empty ledger satisfies the invariant and one
Path-B creation step preserves it. -/
theorem C2_ready_invariant_amended_witness :
    ReadyHasFile (createPathB exEnv emptyLedger "abc" "Demo" 42 0).1 :=
  (C2_ready_invariant_amended emptyLedger
    (createPathB exEnv emptyLedger "abc" "Demo" 42 0).1
    (fun id r hr => by simp [emptyLedger] at hr)
    (ApiStep.createB exEnv emptyLedger "abc" "Demo" 42 0)).1

/-- Counterexample to C2 as stated: recording `abc` was created via Path
B (`gcsPath = "uploads/abc.webm"`), then a direct-upload PUT succeeded; it
reaches `status = ready` with a non-empty `driveFileId` but `gcsPath` is
NOT cleared, so `ready` does not imply an empty holding path. -/
theorem C2_counterexample :
    (exMixed "abc").map Recording.status = some .ready ∧
    (exMixed "abc").map Recording.driveFileId = some "D1" ∧
    (exMixed "abc").map Recording.gcsPath = some "uploads/abc.webm" := by
  decide

/-- **C5**: after a transfer trigger succeeded (200 with a file id), the
recording's `gcsPath` was cleared, so re-invoking the trigger fails
cleanly with the 400 missing-upload error: the ledger is unchanged, no
status is written, and no final-store put is performed. -/
theorem C5_retrigger_after_success (env env2 : Env) (l : Ledger)
    (id fid : String) (hok : (transferPost env l id).resp = .ok fid) :
    (transferPost env2 (transferPost env l id).ledger id).ledger
      = (transferPost env l id).ledger ∧
    (transferPost env2 (transferPost env l id).ledger id).resp
      = .missingUpload ∧
    (transferPost env2 (transferPost env l id).ledger id).statusWrites
      = [] ∧
    (transferPost env2 (transferPost env l id).ledger id).puts = [] := by
  have hg := (transferPost_ok_fields env l id fid hok).1
  obtain ⟨r1, hr1, hg1⟩ := Option.map_eq_some'.mp hg
  set L := (transferPost env l id).ledger with hL
  have hrec : getRecording L id = some { r1 with id := id } := by
    rw [getRecording, hr1]
    rfl
  have hpath : ({ r1 with id := id } : Recording).gcsPath = "" := hg1
  refine ⟨?_, ?_, ?_, ?_⟩ <;> simp [transferPost, hrec, hpath, hg1]

/-- Witness for C5: the Path-B recording `abc` transfers successfully,
then the second trigger is a clean missing-upload failure. -/
theorem C5_retrigger_after_success_witness :
    (transferPost exEnv2 (transferPost exEnv exLedgerB "abc").ledger
        "abc").resp = .missingUpload ∧
    (transferPost exEnv2 (transferPost exEnv exLedgerB "abc").ledger
        "abc").statusWrites = [] ∧
    (transferPost exEnv2 (transferPost exEnv exLedgerB "abc").ledger
        "abc").puts = [] :=
  ⟨(C5_retrigger_after_success exEnv exEnv2 exLedgerB "abc" "D1"
      (by decide)).2.1,
   (C5_retrigger_after_success exEnv exEnv2 exLedgerB "abc" "D1"
      (by decide)).2.2.1,
   (C5_retrigger_after_success exEnv exEnv2 exLedgerB "abc" "D1"
      (by decide)).2.2.2⟩

/-- **C4** (amended): every final-store put performed by the direct
upload or the transfer trigger uses the destination folder read from the
CURRENT Settings document during the handler — the folder snapshotted
into the Recording at creation (`driveFolderId`) is stored but never
consulted, so editing Settings after creation does change where the bytes
are uploaded.  The claim as stated (puts use the creation-time snapshot)
is refuted by the counterexample. -/
theorem C4_put_folder_from_settings (env : Env) (l : Ledger) (id : String)
    (payload : Nat) (s : Settings) (hs : env.settings = some s) :
    (∀ p ∈ (putUpload env l id payload).puts, p.2 = s.driveFolderId) ∧
    (∀ p ∈ (transferPost env l id).puts, p.2 = s.driveFolderId) := by
  constructor
  · simp only [putUpload, hs]
    cases getRecording l id with
    | none => simp
    | some r =>
      by_cases hf : s.driveFolderId = ""
      · simp [hf]
      · simp only [if_neg hf]
        by_cases hp : payload = 0
        · simp [hp]
        · simp only [if_neg hp]
          cases env.drivePut payload (driveFileName r.title id)
            s.driveFolderId <;> simp
  · simp only [transferPost, hs]
    cases getRecording l id with
    | none => simp
    | some r =>
      by_cases hg : r.gcsPath = ""
      · simp [hg]
      · simp only [if_neg hg]
        by_cases he : env.gcsExists r.gcsPath = false
        · simp [he]
        · simp only [he, if_false]
          by_cases hf : s.driveFolderId = ""
          · simp [hf]
          · simp only [if_neg hf]
            cases env.gcsTransfer r.gcsPath (driveFileName r.title id)
              s.driveFolderId <;> simp

/-- Witness for C4 (amended): with current Settings folder `F2`, all puts
target `F2`. -/
theorem C4_put_folder_from_settings_witness :
    (∀ p ∈ (putUpload exEnv2 exLedgerProc "p1" 5).puts,
      p.2 = exSettings2.driveFolderId) ∧
    (∀ p ∈ (transferPost exEnv2 exLedgerProc "p1").puts,
      p.2 = exSettings2.driveFolderId) :=
  C4_put_folder_from_settings exEnv2 exLedgerProc "p1" 5 exSettings2 rfl

/-- Counterexample to C4 as stated: recording `p1` snapshotted folder
`F1` at creation, Settings was then edited to `F2`, and the direct
upload's put goes to `F2`, not the snapshot `F1`. -/
theorem C4_counterexample :
    exProcRec.driveFolderId = "F1" ∧
    (putUpload exEnv2 exLedgerProc "p1" 5).puts
      = [("Demo_p1.webm", "F2")] ∧
    ("F2" : String) ≠ "F1" := by
  decide

/-- **C8** (amended): a successful `updateRecording` merges the partial
fields and refreshes `updatedAt`, and the recording id observed through
`getRecording` never changes (it is overridden by the document key); and
the HTTP PATCH handler, which forwards only `title`, preserves
`createdAt`.  But `updateRecording` itself does NOT protect `createdAt`:
a caller-passed `createdAt` is written (see the counterexample), so the
claim's "never changes createdAt regardless of the partial fields" is
false as stated for the ledger update operation. -/
theorem C8_update_id_createdAt (l : Ledger) (id : String)
    (u : RecordingUpdate) (now : Nat) (l' : Ledger) (r : Recording)
    (hr : l id = some r) (h : updateRecording l id u now = .ok l') :
    (getRecording l' id).map Recording.id = some id ∧
    (l' id).map Recording.updatedAt = some now ∧
    (u.createdAt = none →
      (l' id).map Recording.createdAt = some r.createdAt) ∧
    (∀ t, u.createdAt = some t →
      (l' id).map Recording.createdAt = some t) ∧
    (∀ env bodyTitle,
      ((patchRecording env l id bodyTitle).1 id).map Recording.createdAt
        = some r.createdAt) := by
  unfold updateRecording at h
  rw [hr] at h
  injection h with h2
  subst h2
  have hl' : (l.setDoc id (applyRecordingUpdate r u now)) id
      = some (applyRecordingUpdate r u now) := by
    simp [Ledger.setDoc]
  refine ⟨?_, ?_, ?_, ?_, ?_⟩
  · rw [getRecording, hl']
    rfl
  · rw [hl']
    rfl
  · intro hnone
    rw [hl']
    simp [applyRecordingUpdate, hnone]
  · intro t ht
    rw [hl']
    simp [applyRecordingUpdate, ht]
  · intro env bodyTitle
    have hrec : getRecording l id = some ({ r with id := id }) := by
      rw [getRecording, hr]
      rfl
    simp [patchRecording, hrec, ledgerMerge, hr, applyRecordingUpdate]

/-- Witness for C8 (amended): renaming `r1` keeps its id and `createdAt`
and refreshes `updatedAt`. -/
theorem C8_update_id_createdAt_witness :
    ((exLedgerReady.setDoc "r1"
        (applyRecordingUpdate exReadyRec { title := some "New" } 50))
        "r1").map Recording.updatedAt = some 50 :=
  (C8_update_id_createdAt exLedgerReady "r1" { title := some "New" } 50 _
    exReadyRec (by decide) rfl).2.1

/-- Counterexample to C8 as stated: passing `createdAt` in the partial
fields overwrites the stored creation timestamp (`1` becomes `99`). -/
theorem C8_counterexample :
    exReadyRec.createdAt = 1 ∧
    ((updateRecording exLedgerReady "r1" { createdAt := some 99 }
        50).toOption.bind
      (fun l2 => (l2 "r1").map Recording.createdAt)) = some 99 := by
  decide
